import Mathlib

/-!
# CryptoVision: the `App` component of `src/App.js`

A shallow embedding of the component's state, of `fetchData`, of the preference
functions, of the three change handlers, of the effect and of the chart options, followed
by the properties of the specification that were checked against it.

Conventions of the embedding.

* React state is a record `AppState`; a setter call overwrites one field. The values a
  handler, the effect or `fetchData` reads from its closure are the fields of the state of
  the render that created it, which is passed explicitly (named `r`).
* `localStorage` is an association list from keys to strings, without a quota.
* The browser builtins `parseFloat` and `Date` are a parameter `Builtins`; `jsBuiltins`
  gives their ECMAScript behaviour on primitive values. Numbers are exact rationals, the
  rounding to binary floating point is not modelled.
* What the network answers to a request is a `FetchOutcome`.
-/

namespace CryptoVision

/-! ## JavaScript values -/

/-- What can be thrown inside the `try` block of `fetchData`. -/
inductive JSError where
  /-- The promise of `fetch(...)` is rejected. -/
  | networkError
  /-- The promise of `response.json()` is rejected: the body is not JSON. -/
  | syntaxError
  /-- A `TypeError`: `data.map` is not a function, a property of `null` is read, an
  object cannot be converted to a primitive. -/
  | typeError
  deriving DecidableEq

/-- A JavaScript number: `NaN`, a finite value, or an infinity. -/
inductive JSNum where
  | nan
  | num (q : ℚ)
  | inf (neg : Bool)
  deriving DecidableEq

/-- A `Date` object: its time value in milliseconds since the epoch, or an invalid date. -/
inductive JSDate where
  | invalid
  | time (ms : Int)
  deriving DecidableEq

/-- A JavaScript value as `response.json()` can produce it (`null`, booleans, numbers,
strings, arrays, objects as lists of key and value in source order), and `undefined`,
which reading a missing property yields. -/
inductive JSVal where
  | undefined
  | null
  | bool (b : Bool)
  | num (q : ℚ)
  | str (s : String)
  | arr (xs : List JSVal)
  | obj (kvs : List (String × JSVal))

/-- The value of the last entry with key `k` (a later duplicate key overrides an earlier
one in `JSON.parse`), `undefined` when there is none. -/
def lookupProp (k : String) : List (String × JSVal) → JSVal
  | [] => .undefined
  | (k', v) :: rest =>
    match lookupProp k rest with
    | .undefined => if k' = k then v else .undefined
    | found => found

/-- The property read `item[i]` for an index literal `i`. Reading a property of `null` or
`undefined` throws; an array yields its element, a string its character at that position
(strings are sequences of code points here, which agrees with JavaScript as long as the
characters up to that position are in the basic plane), an object the value under the key
`"i"`; anything missing is `undefined`. No case other than `null` and `undefined`
throws. -/
def JSVal.index : JSVal → Nat → Except JSError JSVal
  | .undefined, _ => .error .typeError
  | .null, _ => .error .typeError
  | .bool _, _ => .ok .undefined
  | .num _, _ => .ok .undefined
  | .str s, i =>
    match s.toList.get? i with
    | some c => .ok (.str (String.singleton c))
    | none => .ok .undefined
  | .arr xs, i => .ok (xs.getD i .undefined)
  | .obj kvs, i => .ok (lookupProp (toString i) kvs)

/-- A callback applied to the elements of a list from left to right; the first throw
aborts. -/
def mapE {α β : Type} (f : α → Except JSError β) : List α → Except JSError (List β)
  | [] => .ok []
  | x :: xs =>
    match f x with
    | .error e => .error e
    | .ok y =>
      match mapE f xs with
      | .error e => .error e
      | .ok ys => .ok (y :: ys)

/-- The call `data.map(f)`: only an array has a callable `map`, on every other value the
call throws a `TypeError`. -/
def jsMap {β : Type} (data : JSVal) (f : JSVal → Except JSError β) :
    Except JSError (List β) :=
  match data with
  | .arr xs => mapE f xs
  | _ => .error .typeError

/-- The two builtins `fetchData` applies to the fields of a row. Each may throw (the
conversion of an object to a primitive can). -/
structure Builtins where
  /-- The global function `parseFloat(v)`. -/
  parseFloat : JSVal → Except JSError JSNum
  /-- The construction `new Date(v)`. -/
  newDate : JSVal → Except JSError JSDate

/-! ## A reference instance of the builtins on primitive values -/

/-- White space that `parseFloat` skips in front of the literal. -/
def isJSSpace (c : Char) : Bool :=
  c = ' ' || c = '\t' || c = '\n' || c = '\r' || c.toNat = 11 || c.toNat = 12 ||
    c.toNat = 160 || c.toNat = 65279

/-- The natural number written by a list of decimal digits. -/
def digitsVal (cs : List Char) : Nat :=
  cs.foldl (fun n c => 10 * n + (c.toNat - 48)) 0

/-- The rational `m * 10 ^ e`. -/
def scale10 (m : Nat) (e : Int) : ℚ :=
  if 0 ≤ e then ((m * 10 ^ e.toNat : Nat) : ℚ) else mkRat m (10 ^ (-e).toNat)

/-- The exponent part `e`, `e+` or `e-` followed by at least one digit; `0` when the rest
of the string does not start with a complete exponent part. -/
def exponentPart (rest : List Char) : Int :=
  match rest with
  | [] => 0
  | c :: r =>
    if c = 'e' ∨ c = 'E' then
      match r with
      | '-' :: ds =>
        if (ds.takeWhile Char.isDigit).isEmpty then 0
        else -((digitsVal (ds.takeWhile Char.isDigit) : Nat) : Int)
      | '+' :: ds => ((digitsVal (ds.takeWhile Char.isDigit) : Nat) : Int)
      | ds => ((digitsVal (ds.takeWhile Char.isDigit) : Nat) : Int)
    else 0

/-- The unsigned part of a decimal literal at the front of `cs`: digits, an optional
point and digits, an optional exponent; `NaN` when there is no digit. -/
def parseUnsigned (neg : Bool) (cs : List Char) : JSNum :=
  let ip := cs.takeWhile Char.isDigit
  let r1 := cs.dropWhile Char.isDigit
  let fp := match r1 with
    | '.' :: r => r.takeWhile Char.isDigit
    | _ => []
  let r2 := match r1 with
    | '.' :: r => r.dropWhile Char.isDigit
    | _ => r1
  if ip.isEmpty && fp.isEmpty then .nan
  else
    let q := scale10 (digitsVal (ip ++ fp)) (exponentPart r2 - (fp.length : Int))
    .num (if neg then -q else q)

/-- The function `parseFloat` on a string: leading white space is skipped, then the
longest prefix that is a decimal literal (or `Infinity`) with an optional sign is read;
`NaN` when there is none. -/
def parseFloatStr (s : String) : JSNum :=
  let cs := s.toList.dropWhile isJSSpace
  let neg := match cs with
    | '-' :: _ => true
    | _ => false
  let body := match cs with
    | '-' :: r => r
    | '+' :: r => r
    | _ => cs
  if body.take 8 = "Infinity".toList then .inf neg else parseUnsigned neg body

/-- The largest magnitude of a time value, `8.64e15` milliseconds. -/
def maxTime : Int := 8640000000000000

/-- `new Date(n)` for a finite number: a value beyond `maxTime` in magnitude gives an
invalid date, otherwise the fraction is dropped (rounding towards zero). -/
def timeClip (q : ℚ) : JSDate :=
  if -(maxTime : ℚ) ≤ q ∧ q ≤ (maxTime : ℚ) then .time (q.num.tdiv (q.den : Int))
  else .invalid

/-- The builtins on primitive values, as ECMAScript fixes them: `parseFloat` converts
its argument to a string first (`undefined`, `null` and booleans read as words and give
`NaN`; a number is read back unchanged), and `new Date` converts a non-string primitive to
a number (`undefined` is `NaN`, `null` is `0`, `true` is `1`). The cases ECMAScript leaves
to the implementation or that need the conversion of a container to a string (a string as
a date, arrays, objects) are answered by `rest`. -/
def jsBuiltins (rest : Builtins) : Builtins where
  parseFloat v :=
    match v with
    | .undefined => .ok .nan
    | .null => .ok .nan
    | .bool _ => .ok .nan
    | .num q => .ok (.num q)
    | .str s => .ok (parseFloatStr s)
    | other => rest.parseFloat other
  newDate v :=
    match v with
    | .undefined => .ok .invalid
    | .null => .ok (.time 0)
    | .bool b => .ok (.time (if b then 1 else 0))
    | .num q => .ok (timeClip q)
    | other => rest.newDate other

/-- A choice for the cases `jsBuiltins` leaves open: every one of them throws. -/
def throwingBuiltins : Builtins where
  parseFloat _ := .error .typeError
  newDate _ := .error .typeError

/-! ## Chart data -/

/-- The single dataset of the line and bar chart. -/
structure Dataset where
  label : String
  data : List JSNum
  borderColor : String
  backgroundColor : String
  borderWidth : Nat
  fill : Bool
  deriving DecidableEq

/-- The object `formattedData`: labels and datasets of the line and bar chart. -/
structure LineBarData where
  labels : List JSDate
  datasets : List Dataset
  deriving DecidableEq

/-- One element of `candlestickData`. -/
structure Candle where
  x : JSDate
  o : JSNum
  h : JSNum
  l : JSNum
  c : JSNum
  deriving DecidableEq

/-- The object passed to `setChartData`. -/
structure ChartData where
  lineBarData : LineBarData
  candlestickData : List Candle
  deriving DecidableEq

/-- The state of the component: the five `useState` cells. -/
structure AppState where
  chartData : Option ChartData
  coin : String
  interval : String
  loading : Bool
  chartType : String
  deriving DecidableEq

/-- The initial values of the five `useState` cells. -/
def initialState : AppState :=
  { chartData := none, coin := "ETHUSDT", interval := "1m", loading := true,
    chartType := "line" }

/-! ## `fetchData` -/

/-- How the request of one `fetchData` call settles: the promise of `fetch` is rejected,
or it resolves to a response with an HTTP status whose `json()` either rejects (`none`) or
yields a value. -/
inductive FetchOutcome where
  | rejected
  | response (status : Nat) (body : Option JSVal)

/-- The URL requested by `fetchData(coinSymbol, interval)`. -/
def requestUrl (coinSymbol interval : String) : String :=
  "https://api.binance.com/api/v3/klines?symbol=" ++ coinSymbol ++ "&interval=" ++
    interval ++ "&limit=100"

/-- The value of `await response.json()` after `await fetch(...)`; the status of the
response is not read. -/
def awaitJson : FetchOutcome → Except JSError JSVal
  | .rejected => .error .networkError
  | .response _ none => .error .syntaxError
  | .response _ (some data) => .ok data

/-- The callback of the `labels` map: `new Date(item[0])`. -/
def labelOf (env : Builtins) (item : JSVal) : Except JSError JSDate :=
  match item.index 0 with
  | .error e => .error e
  | .ok v => env.newDate v

/-- The callback `parseFloat(item[i])`. -/
def priceOf (env : Builtins) (i : Nat) (item : JSVal) : Except JSError JSNum :=
  match item.index i with
  | .error e => .error e
  | .ok v => env.parseFloat v

/-- The callback of the `candlestickData` map, its fields evaluated in source order
`x`, `o`, `h`, `l`, `c` from the indices `0`, `1`, `3`, `4`, `2`. -/
def candleOf (env : Builtins) (item : JSVal) : Except JSError Candle := do
  let x ← labelOf env item
  let o ← priceOf env 1 item
  let h ← priceOf env 3 item
  let l ← priceOf env 4 item
  let c ← priceOf env 2 item
  pure { x := x, o := o, h := h, l := l, c := c }

/-- The object `formattedData` built from `data`; `chartType` is the value captured by
the `useCallback` closure. -/
def formattedData (env : Builtins) (chartType : String) (data : JSVal) :
    Except JSError LineBarData := do
  let labels ← jsMap data (labelOf env)
  let values ← jsMap data (priceOf env 1)
  pure
    { labels := labels
      datasets :=
        [{ label := "Price", data := values, borderColor := "rgba(75, 192, 192, 1)",
           backgroundColor := "rgba(75, 192, 192, 0.2)", borderWidth := 1,
           fill := decide (chartType = "line") }] }

/-- The array `candlestickData` built from `data`. -/
def candlestickData (env : Builtins) (data : JSVal) : Except JSError (List Candle) :=
  jsMap data (candleOf env)

/-- The `try` block of `fetchData` after `setLoading(true)`, up to the argument of
`setChartData`; an error is whatever the block throws. -/
def tryBlock (env : Builtins) (chartType : String) (outcome : FetchOutcome) :
    Except JSError ChartData := do
  let data ← awaitJson outcome
  let fd ← formattedData env chartType data
  let cd ← candlestickData env data
  pure { lineBarData := fd, candlestickData := cd }

/-- The synchronous start of a `fetchData` call: `setLoading(true)`, after which the
request is issued. -/
def fetchDataStart (s : AppState) : AppState :=
  { s with loading := true }

/-- The rest of a `fetchData` call once the request has settled: on success
`setChartData(...)` and `setLoading(false)`; a throw is caught, logged, and followed by
`setLoading(false)`. -/
def fetchDataSettle (env : Builtins) (chartType : String) (outcome : FetchOutcome)
    (s : AppState) : AppState :=
  match tryBlock env chartType outcome with
  | .ok cd => { s with chartData := some cd, loading := false }
  | .error _ => { s with loading := false }

/-- One whole call `fetchData(coinSymbol, interval)` of the callback created with
`chartType`, from the state `s`, with no other update in between; `net` is what the
network answers to each URL. -/
def fetchData (env : Builtins) (net : String → FetchOutcome) (chartType : String)
    (coinSymbol interval : String) (s : AppState) : AppState :=
  fetchDataSettle env chartType (net (requestUrl coinSymbol interval)) (fetchDataStart s)

/-! ## Preferences in `localStorage` -/

/-- The contents of `localStorage`: keys and their string values, at most one entry a
key. -/
abbrev Storage := List (String × String)

/-- `localStorage.getItem(key)`: the stored string, or `none` for `null`. -/
def Storage.getItem (store : Storage) (key : String) : Option String :=
  store.lookup key

/-- `localStorage.setItem(key, value)`: the entry of `key` is replaced. -/
def Storage.setItem (store : Storage) (key value : String) : Storage :=
  (key, value) :: store.filter (fun kv => kv.1 != key)

/-- The test `if (saved)` on the result of `getItem`: `null` and the empty string are
falsy. -/
def truthy : Option String → Bool
  | none => false
  | some v => v != ""

/-- `loadPreferences()`: `setCoin(savedCoin)` when `savedCoin` is truthy and
`setInterval(savedTimeframe)` when `savedTimeframe` is truthy, applied to the pending
state `s`. -/
def loadPreferences (store : Storage) (s : AppState) : AppState :=
  let savedCoin := store.getItem "selectedCoin"
  let savedTimeframe := store.getItem "selectedTimeframe"
  let s1 := if truthy savedCoin then { s with coin := savedCoin.getD "" } else s
  if truthy savedTimeframe then { s1 with interval := savedTimeframe.getD "" } else s1

/-- `savePreferences()` of the render `r`: it writes the `coin` and `interval` of that
render. -/
def savePreferences (r : AppState) (store : Storage) : Storage :=
  (store.setItem "selectedCoin" r.coin).setItem "selectedTimeframe" r.interval

/-! ## The component as a transition system -/

/-- One invocation of `fetchData`: its two arguments and the `chartType` captured by the
callback that was invoked. -/
structure FetchCall where
  coinSymbol : String
  interval : String
  chartType : String
  deriving DecidableEq

/-- The dependency array `[coin, interval, fetchData]` of a render. `useCallback` with
dependencies `[chartType]` returns the callback of the previous render exactly when
`chartType` is unchanged, so between two consecutive renders the identity of `fetchData`
changes exactly when `chartType` does; the third component stands for that identity. -/
abbrev Deps := String × String × String

/-- The dependency array of the render of state `s`. -/
def depsOf (s : AppState) : Deps := (s.coin, s.interval, s.chartType)

/-- The component together with what surrounds it. -/
structure World where
  /-- The React state, all enqueued updates applied. -/
  st : AppState
  /-- The contents of `localStorage`. -/
  store : Storage
  /-- The dependency array of the render whose effect ran last; `none` before the first
  effect. -/
  deps : Option Deps
  /-- Every invocation of `fetchData` so far, oldest first. -/
  calls : List FetchCall
  /-- The invocations whose request has not settled yet, oldest first. -/
  inflight : List FetchCall
  deriving DecidableEq

/-- The component is mounted with the given `localStorage`: the first render has the
initial state and its effect has not run yet. -/
def mountWorld (store : Storage) : World :=
  { st := initialState, store := store, deps := none, calls := [], inflight := [] }

/-- The synchronous part of the invocation `fetchData(coinSymbol, interval)` of the
callback of a render with the given `chartType`: `setLoading(true)` and the request is
issued. -/
def callFetchData (chartType coinSymbol interval : String) (w : World) : World :=
  let call : FetchCall :=
    { coinSymbol := coinSymbol, interval := interval, chartType := chartType }
  { w with st := fetchDataStart w.st, calls := w.calls ++ [call],
           inflight := w.inflight ++ [call] }

/-- The request of the `k`-th invocation in flight settles with `outcome` and the rest of
that `fetchData` call runs; nothing happens when there is no such invocation. -/
def settleFetch (env : Builtins) (k : Nat) (outcome : FetchOutcome) (w : World) : World :=
  match w.inflight.get? k with
  | none => w
  | some call =>
    { w with st := fetchDataSettle env call.chartType outcome w.st,
             inflight := w.inflight.eraseIdx k }

/-- The effect has to run: the component has just been mounted, or the dependency array
of the current state differs from the one the effect last ran with. -/
def effectPending (w : World) : Bool :=
  w.deps != some (depsOf w.st)

/-- The body of the effect in the render of the current state `r`:
`loadPreferences(); fetchData(coin, interval);`. -/
def runEffect (w : World) : World :=
  let r := w.st
  let w1 := { w with deps := some (depsOf r), st := loadPreferences w.store w.st }
  callFetchData r.chartType r.coin r.interval w1

/-- Renders and effects are run while an effect is pending, at most `fuel` times. -/
def flushEffects : Nat → World → World
  | 0, w => w
  | fuel + 1, w => if effectPending w then flushEffects fuel (runEffect w) else w

/-- The fuel `flushEffects` is given after a mount and after a handler; two runs of the
effect always suffice (`flushEffects_stable`). -/
def effectFuel : Nat := 8

/-- The application is started with the given `localStorage`: mount, then renders and
effects until none is pending. -/
def startApp (store : Storage) : World :=
  flushEffects effectFuel (mountWorld store)

/-- The body of `handleCoinChange` in the render of the current state `r`, with
`event.target.value = selectedCoin`: `setCoin(selectedCoin); savePreferences();
fetchData(selectedCoin, interval);`. -/
def handleCoinChange (selectedCoin : String) (w : World) : World :=
  let r := w.st
  let w1 := { w with st := { w.st with coin := selectedCoin } }
  let w2 := { w1 with store := savePreferences r w1.store }
  callFetchData r.chartType selectedCoin r.interval w2

/-- The body of `handleTimeframeChange` in the render of the current state `r`, with
`event.target.value = selectedTimeframe`: `setInterval(selectedTimeframe);
savePreferences(); fetchData(coin, selectedTimeframe);`. -/
def handleTimeframeChange (selectedTimeframe : String) (w : World) : World :=
  let r := w.st
  let w1 := { w with st := { w.st with interval := selectedTimeframe } }
  let w2 := { w1 with store := savePreferences r w1.store }
  callFetchData r.chartType r.coin selectedTimeframe w2

/-- The body of `handleChartTypeChange` with `event.target.value = value`:
`setChartType(value)`. -/
def handleChartTypeChange (value : String) (w : World) : World :=
  { w with st := { w.st with chartType := value } }

/-- The user picks a coin: the handler, then renders and effects until none is
pending. -/
def changeCoin (selectedCoin : String) (w : World) : World :=
  flushEffects effectFuel (handleCoinChange selectedCoin w)

/-- The user picks an interval: the handler, then renders and effects until none is
pending. -/
def changeTimeframe (selectedTimeframe : String) (w : World) : World :=
  flushEffects effectFuel (handleTimeframeChange selectedTimeframe w)

/-- The user picks a chart type: the handler, then renders and effects until none is
pending. -/
def changeChartType (value : String) (w : World) : World :=
  flushEffects effectFuel (handleChartTypeChange value w)

/-- What can happen to a mounted component: one of the three selections changes, or a
request in flight settles. -/
inductive Action where
  | coin (selectedCoin : String)
  | timeframe (selectedTimeframe : String)
  | chartType (value : String)
  | settle (k : Nat) (outcome : FetchOutcome)

/-- One action applied to the component. -/
def step (env : Builtins) (w : World) : Action → World
  | .coin v => changeCoin v w
  | .timeframe v => changeTimeframe v w
  | .chartType v => changeChartType v w
  | .settle k outcome => settleFetch env k outcome w

/-- A sequence of actions applied from left to right. -/
def run (env : Builtins) (w : World) (actions : List Action) : World :=
  actions.foldl (step env) w

/-! ## Chart options -/

/-- The expression of `options.scales.x.time.unit`. -/
def timeUnit (interval : String) : String :=
  if interval = "1m" then "minute"
  else if interval = "5m" then "minute"
  else if interval = "1h" then "hour"
  else if interval = "1d" then "day"
  else if interval = "1w" then "week"
  else "month"

/-- The `x` scale of `options`. -/
structure XScale where
  type : String
  unit : String
  deriving DecidableEq

/-- The object `options`. -/
structure ChartOptions where
  responsive : Bool
  x : XScale
  yBeginAtZero : Bool
  deriving DecidableEq

/-- The object `options` of a render with the given `interval`. -/
def options (interval : String) : ChartOptions :=
  { responsive := true, x := { type := "time", unit := timeUnit interval },
    yBeginAtZero := true }

/-! ## Concrete inputs -/

/-- The builtins used on concrete inputs: `jsBuiltins`, every case it leaves open
throwing. -/
def refBuiltins : Builtins := jsBuiltins throwingBuiltins

/-- A network that answers every request with the same outcome. -/
def constNet (outcome : FetchOutcome) : String → FetchOutcome := fun _ => outcome

/-- The row `[1700000000000, "1800.5", "1805.2", "1810.0", "1795.0"]`. -/
def specRow : JSVal :=
  .arr [.num 1700000000000, .str "1800.5", .str "1805.2", .str "1810.0", .str "1795.0"]

/-- The row `[1700000000000, "1800.5"]`, which has two fields. -/
def shortRow : JSVal :=
  .arr [.num 1700000000000, .str "1800.5"]

/-- The body `{"code": -1121, "msg": "Invalid symbol."}` the exchange sends with status
400. -/
def errorBody : JSVal :=
  .obj [("code", .num (-1121)), ("msg", .str "Invalid symbol.")]

/-- The chart data built from the single row `specRow` by the `line` callback. -/
def specChart : ChartData :=
  { lineBarData :=
      { labels := [.time 1700000000000]
        datasets :=
          [{ label := "Price", data := [.num 1800.5],
             borderColor := "rgba(75, 192, 192, 1)",
             backgroundColor := "rgba(75, 192, 192, 0.2)", borderWidth := 1,
             fill := true }] }
    candlestickData :=
      [{ x := .time 1700000000000, o := .num 1800.5, h := .num 1810.0, l := .num 1795.0,
         c := .num 1805.2 }] }

/-- The chart data built from the single row `shortRow` by the `line` callback: the
missing prices are `NaN`. -/
def shortChart : ChartData :=
  { lineBarData :=
      { labels := [.time 1700000000000]
        datasets :=
          [{ label := "Price", data := [.num 1800.5],
             borderColor := "rgba(75, 192, 192, 1)",
             backgroundColor := "rgba(75, 192, 192, 0.2)", borderWidth := 1,
             fill := true }] }
    candlestickData :=
      [{ x := .time 1700000000000, o := .num 1800.5, h := .nan, l := .nan, c := .nan }] }

/-- The chart data built from an empty array of rows by the `line` callback. -/
def emptyChart : ChartData :=
  { lineBarData :=
      { labels := []
        datasets :=
          [{ label := "Price", data := [],
             borderColor := "rgba(75, 192, 192, 1)",
             backgroundColor := "rgba(75, 192, 192, 0.2)", borderWidth := 1,
             fill := true }] }
    candlestickData := [] }

/-- The application started with an empty `localStorage`. -/
def freshWorld : World := startApp []

/-- The application started with an empty `localStorage`, its first request rejected:
nothing is in flight and `loading` is false. -/
def idleWorld : World := settleFetch refBuiltins 0 .rejected (startApp [])

/-- A `localStorage` holding the preferences `BTCUSDT` and `1h`. -/
def savedStore : Storage := [("selectedCoin", "BTCUSDT"), ("selectedTimeframe", "1h")]

/-- The actions of a session: the coin is changed to `BTCUSDT`, then the four requests
issued so far settle one by one, the second of them with the row `specRow`. -/
def sessionActions : List Action :=
  [.coin "BTCUSDT", .settle 0 .rejected,
   .settle 0 (.response 200 (some (.arr [specRow]))), .settle 0 (.response 404 none),
   .settle 0 (.response 200 (some errorBody))]

/-! ## Lemmas on `data.map` -/

theorem mapE_ok_length {α β : Type} (f : α → Except JSError β) :
    ∀ (xs : List α) (ys : List β), mapE f xs = .ok ys → ys.length = xs.length := by
  intro xs
  induction xs with
  | nil =>
    intro ys h
    simp [mapE] at h
    subst h
    rfl
  | cons x xs ih =>
    intro ys h
    unfold mapE at h
    cases hx : f x with
    | error e => simp [hx] at h
    | ok y =>
      cases hxs : mapE f xs with
      | error e => simp [hx, hxs] at h
      | ok ys' =>
        simp [hx, hxs] at h
        subst h
        simp [ih ys' hxs]

theorem mapE_ok_get {α β : Type} (f : α → Except JSError β) :
    ∀ (xs : List α) (ys : List β), mapE f xs = .ok ys →
      ∀ (k : Nat) (x : α), xs.get? k = some x →
        ∃ y, f x = .ok y ∧ ys.get? k = some y := by
  intro xs
  induction xs with
  | nil =>
    intro ys _ k x hk
    simp at hk
  | cons x0 xs ih =>
    intro ys h k x hk
    unfold mapE at h
    cases hx : f x0 with
    | error e => simp [hx] at h
    | ok y0 =>
      cases hxs : mapE f xs with
      | error e => simp [hx, hxs] at h
      | ok ys' =>
        simp [hx, hxs] at h
        subst h
        cases k with
        | zero =>
          simp at hk
          subst hk
          exact ⟨y0, hx, by simp⟩
        | succ k =>
          simp at hk
          obtain ⟨y, hy, hget⟩ := ih ys' hxs k x (by simpa using hk)
          exact ⟨y, hy, by simpa using hget⟩

theorem mapE_error_of_mem {α β : Type} (f : α → Except JSError β) :
    ∀ (xs : List α) (x : α), x ∈ xs → (∃ e, f x = .error e) → ∃ e, mapE f xs = .error e := by
  intro xs
  induction xs with
  | nil =>
    intro x hx _
    simp at hx
  | cons x0 xs ih =>
    intro x hx hf
    unfold mapE
    cases h0 : f x0 with
    | error e => exact ⟨e, rfl⟩
    | ok y0 =>
      have hmem : x ∈ xs := by
        rcases List.mem_cons.mp hx with h | h
        · subst h
          obtain ⟨e, he⟩ := hf
          rw [he] at h0
          cases h0
        · exact h
      obtain ⟨e, he⟩ := ih x hmem hf
      exact ⟨e, by simp [he]⟩

/-- A successful `try` block: the response carried an array, and the three maps over its
rows succeeded with the parts of the result. -/
theorem tryBlock_ok (env : Builtins) (chartType : String) (outcome : FetchOutcome)
    (cd : ChartData) (h : tryBlock env chartType outcome = .ok cd) :
    ∃ status rows, outcome = .response status (some (.arr rows)) ∧
      mapE (labelOf env) rows = .ok cd.lineBarData.labels ∧
      (∃ ds, cd.lineBarData.datasets = [ds] ∧ mapE (priceOf env 1) rows = .ok ds.data) ∧
      mapE (candleOf env) rows = .ok cd.candlestickData := by
  cases outcome with
  | rejected => simp [tryBlock, awaitJson, bind, Except.bind] at h
  | response status body =>
    cases body with
    | none => simp [tryBlock, awaitJson, bind, Except.bind] at h
    | some data =>
      cases data with
      | arr rows =>
        refine ⟨status, rows, rfl, ?_⟩
        simp only [tryBlock, awaitJson, formattedData, candlestickData, jsMap, bind,
          Except.bind, pure, Except.pure] at h
        cases hl : mapE (labelOf env) rows with
        | error e => simp [hl] at h
        | ok labels =>
          cases hv : mapE (priceOf env 1) rows with
          | error e => simp [hl, hv] at h
          | ok values =>
            cases hc : mapE (candleOf env) rows with
            | error e => simp [hl, hv, hc] at h
            | ok candles =>
              simp [hl, hv, hc] at h
              subst h
              exact ⟨rfl, ⟨_, rfl, rfl⟩, rfl⟩
      | _ =>
        simp [tryBlock, awaitJson, formattedData, jsMap, bind, Except.bind] at h

/-- A throwing `try` block leaves `chartData` alone and clears `loading`. -/
theorem fetchDataSettle_error (env : Builtins) (chartType : String)
    (outcome : FetchOutcome) (s : AppState) (e : JSError)
    (h : tryBlock env chartType outcome = .error e) :
    fetchDataSettle env chartType outcome s = { s with loading := false } := by
  simp [fetchDataSettle, h]

/-- A successful `try` block replaces `chartData` and clears `loading`. -/
theorem fetchDataSettle_ok (env : Builtins) (chartType : String)
    (outcome : FetchOutcome) (s : AppState) (cd : ChartData)
    (h : tryBlock env chartType outcome = .ok cd) :
    fetchDataSettle env chartType outcome s =
      { s with chartData := some cd, loading := false } := by
  simp [fetchDataSettle, h]

/-- The callback of the candlestick map succeeds exactly with the five converted
fields. -/
theorem candleOf_ok (env : Builtins) (item : JSVal) (cnd : Candle)
    (h : candleOf env item = .ok cnd) :
    labelOf env item = .ok cnd.x ∧ priceOf env 1 item = .ok cnd.o ∧
      priceOf env 3 item = .ok cnd.h ∧ priceOf env 4 item = .ok cnd.l ∧
      priceOf env 2 item = .ok cnd.c := by
  simp only [candleOf, bind, Except.bind, pure, Except.pure] at h
  cases hx : labelOf env item with
  | error e => simp [hx] at h
  | ok x =>
    cases ho : priceOf env 1 item with
    | error e => simp [hx, ho] at h
    | ok o =>
      cases hh : priceOf env 3 item with
      | error e => simp [hx, ho, hh] at h
      | ok hi =>
        cases hl : priceOf env 4 item with
        | error e => simp [hx, ho, hh, hl] at h
        | ok l =>
          cases hc : priceOf env 2 item with
          | error e => simp [hx, ho, hh, hl, hc] at h
          | ok c =>
            simp [hx, ho, hh, hl, hc] at h
            subst h
            simp

/-! ## Evaluation of the reference builtins on the concrete rows -/

theorem parseFloatStr_1800_5 : parseFloatStr "1800.5" = .num 1800.5 := by
  simp [parseFloatStr, parseUnsigned, scale10, isJSSpace, digitsVal, exponentPart]
  norm_num

theorem parseFloatStr_1805_2 : parseFloatStr "1805.2" = .num 1805.2 := by
  simp [parseFloatStr, parseUnsigned, scale10, isJSSpace, digitsVal, exponentPart]
  norm_num

theorem parseFloatStr_1810_0 : parseFloatStr "1810.0" = .num 1810.0 := by
  simp [parseFloatStr, parseUnsigned, scale10, isJSSpace, digitsVal, exponentPart]
  norm_num

theorem parseFloatStr_1795_0 : parseFloatStr "1795.0" = .num 1795.0 := by
  simp [parseFloatStr, parseUnsigned, scale10, isJSSpace, digitsVal, exponentPart]
  norm_num

theorem timeClip_1700000000000 : timeClip 1700000000000 = .time 1700000000000 := by
  decide

theorem tryBlock_specRow (status : Nat) :
    tryBlock refBuiltins "line" (.response status (some (.arr [specRow]))) = .ok specChart := by
  simp [tryBlock, awaitJson, formattedData, candlestickData, jsMap, mapE, labelOf, priceOf,
    candleOf, specRow, specChart, JSVal.index, refBuiltins, jsBuiltins, bind, Except.bind,
    pure, Except.pure, parseFloatStr_1800_5, parseFloatStr_1805_2, parseFloatStr_1810_0,
    parseFloatStr_1795_0, timeClip_1700000000000]

theorem tryBlock_shortRow (status : Nat) :
    tryBlock refBuiltins "line" (.response status (some (.arr [shortRow]))) = .ok shortChart := by
  simp [tryBlock, awaitJson, formattedData, candlestickData, jsMap, mapE, labelOf, priceOf,
    candleOf, shortRow, shortChart, JSVal.index, refBuiltins, jsBuiltins, bind, Except.bind,
    pure, Except.pure, parseFloatStr_1800_5, timeClip_1700000000000]

theorem tryBlock_empty (status : Nat) :
    tryBlock refBuiltins "line" (.response status (some (.arr []))) = .ok emptyChart := by
  simp [tryBlock, awaitJson, formattedData, candlestickData, jsMap, mapE, emptyChart, bind,
    Except.bind, pure, Except.pure]

/-! ## `fetchData`: the transform and its two endings -/

/-- C1: when the `try` block of `fetchData` succeeds on the rows the network returned,
the held chart data is the result of that block, and every row `r` at an index `k` is
mapped positionally: label `k` is `new Date(r[0])`, plotted value `k` is
`parseFloat(r[1])`, and candle `k` has `x = new Date(r[0])`, `o = parseFloat(r[1])`,
`h = parseFloat(r[3])`, `l = parseFloat(r[4])` and `c = parseFloat(r[2])`. -/
theorem fetchData_maps_rows_positionally (env : Builtins) (net : String → FetchOutcome)
    (chartType coinSymbol interval : String) (s : AppState) (status : Nat)
    (rows : List JSVal) (cd : ChartData)
    (hnet : net (requestUrl coinSymbol interval) = .response status (some (.arr rows)))
    (hok : tryBlock env chartType (.response status (some (.arr rows))) = .ok cd) :
    (fetchData env net chartType coinSymbol interval s).chartData = some cd ∧
      ∀ (k : Nat) (r : JSVal), rows.get? k = some r →
        ∃ t o h l c,
          labelOf env r = .ok t ∧ priceOf env 1 r = .ok o ∧ priceOf env 3 r = .ok h ∧
          priceOf env 4 r = .ok l ∧ priceOf env 2 r = .ok c ∧
          cd.lineBarData.labels.get? k = some t ∧
          cd.lineBarData.datasets.map (fun d => d.data.get? k) = [some o] ∧
          cd.candlestickData.get? k = some { x := t, o := o, h := h, l := l, c := c } := by
  constructor
  · simp [fetchData, hnet, fetchDataSettle_ok env chartType _ _ cd hok]
  · intro k r hk
    obtain ⟨status', rows', hout, hl, ⟨ds, hds, hv⟩, hc⟩ := tryBlock_ok env chartType _ cd hok
    have hrows : rows' = rows := by
      cases hout
      rfl
    subst hrows
    obtain ⟨t, ht, hgt⟩ := mapE_ok_get _ _ _ hl k r hk
    obtain ⟨o, ho, hgo⟩ := mapE_ok_get _ _ _ hv k r hk
    obtain ⟨cnd, hcnd, hgc⟩ := mapE_ok_get _ _ _ hc k r hk
    obtain ⟨hx, ho', hh, hlo, hcl⟩ := candleOf_ok env r cnd hcnd
    have hxt : cnd.x = t := by
      rw [ht] at hx
      cases hx
      rfl
    have hoo : cnd.o = o := by
      rw [ho] at ho'
      cases ho'
      rfl
    refine ⟨t, o, cnd.h, cnd.l, cnd.c, ht, ho, hh, hlo, hcl, hgt, ?_, ?_⟩
    · simpa [hds] using hgo
    · rw [hgc, ← hxt, ← hoo]

/-- C1, at the row `[1700000000000, "1800.5", "1805.2", "1810.0", "1795.0"]`: the block
succeeds with `specChart`, whose label is the date 1700000000000, whose plotted value is
1800.5 and whose candle has open 1800.5, high 1810.0, low 1795.0 and close 1805.2. -/
theorem fetchData_maps_rows_positionally_witness :
    (constNet (.response 200 (some (.arr [specRow]))) (requestUrl "ETHUSDT" "1m") =
        .response 200 (some (.arr [specRow])) ∧
      tryBlock refBuiltins "line" (.response 200 (some (.arr [specRow]))) = .ok specChart) ∧
    (specChart.lineBarData.labels = [.time 1700000000000] ∧
      specChart.lineBarData.datasets.map (fun d => d.data) = [[.num 1800.5]] ∧
      specChart.candlestickData =
        [{ x := .time 1700000000000, o := .num 1800.5, h := .num 1810.0, l := .num 1795.0,
           c := .num 1805.2 }]) ∧
    ((fetchData refBuiltins (constNet (.response 200 (some (.arr [specRow])))) "line"
        "ETHUSDT" "1m" initialState).chartData = some specChart ∧
      ∀ (k : Nat) (r : JSVal), [specRow].get? k = some r →
        ∃ t o h l c,
          labelOf refBuiltins r = .ok t ∧ priceOf refBuiltins 1 r = .ok o ∧
          priceOf refBuiltins 3 r = .ok h ∧ priceOf refBuiltins 4 r = .ok l ∧
          priceOf refBuiltins 2 r = .ok c ∧
          specChart.lineBarData.labels.get? k = some t ∧
          specChart.lineBarData.datasets.map (fun d => d.data.get? k) = [some o] ∧
          specChart.candlestickData.get? k =
            some { x := t, o := o, h := h, l := l, c := c }) :=
  ⟨⟨rfl, tryBlock_specRow 200⟩, ⟨rfl, rfl, rfl⟩,
    fetchData_maps_rows_positionally refBuiltins
      (constNet (.response 200 (some (.arr [specRow])))) "line" "ETHUSDT" "1m" initialState
      200 [specRow] specChart rfl (tryBlock_specRow 200)⟩

/-- C2: whatever the prior state, the arguments and the answer of the network, a
`fetchData` call ends in one of two ways: the network answered with an array of rows and
the held chart data is now a `ChartData` whose labels, plotted values and candles are as
many as the rows; or the held chart data is what it was before the call and `loading` is
false. -/
theorem fetchData_two_endings (env : Builtins) (net : String → FetchOutcome)
    (chartType coinSymbol interval : String) (s : AppState) :
    (∃ status rows cd,
        net (requestUrl coinSymbol interval) = .response status (some (.arr rows)) ∧
        (fetchData env net chartType coinSymbol interval s).chartData = some cd ∧
        cd.lineBarData.labels.length = rows.length ∧
        cd.lineBarData.datasets.map (fun d => d.data.length) = [rows.length] ∧
        cd.candlestickData.length = rows.length) ∨
      ((fetchData env net chartType coinSymbol interval s).chartData = s.chartData ∧
        (fetchData env net chartType coinSymbol interval s).loading = false) := by
  cases h : tryBlock env chartType (net (requestUrl coinSymbol interval)) with
  | error e =>
    right
    simp [fetchData, fetchDataSettle_error env chartType _ _ e h, fetchDataStart]
  | ok cd =>
    left
    obtain ⟨status, rows, hout, hl, ⟨ds, hds, hv⟩, hc⟩ := tryBlock_ok env chartType _ cd h
    refine ⟨status, rows, cd, hout, ?_, mapE_ok_length _ _ _ hl, ?_, mapE_ok_length _ _ _ hc⟩
    · simp [fetchData, fetchDataSettle_ok env chartType _ _ cd h]
    · simp [hds, mapE_ok_length _ _ _ hv]

/-- C3 as stated fails: a response whose only row has two fields, and a response with
status 500 whose body is an empty array, both replace the held chart data. -/
theorem fetchData_failure_counterexample :
    (fetchData refBuiltins (constNet (.response 200 (some (.arr [shortRow])))) "line"
        "ETHUSDT" "1m" initialState).chartData = some shortChart ∧
      (fetchData refBuiltins (constNet (.response 500 (some (.arr [])))) "line"
        "ETHUSDT" "1m" initialState).chartData = some emptyChart ∧
      initialState.chartData = none := by
  refine ⟨?_, ?_, rfl⟩
  · simp [fetchData, constNet, fetchDataSettle_ok _ _ _ _ _ (tryBlock_shortRow 200)]
  · simp [fetchData, constNet, fetchDataSettle_ok _ _ _ _ _ (tryBlock_empty 500)]

/-- C3, amended: when the request is rejected, or the body is not JSON, or the parsed
body is not an array, or some row is `null`, whatever the HTTP status, `fetchData` leaves
the held chart data at its previous value and sets `loading` to false. -/
theorem fetchData_failure_keeps_chartData (env : Builtins) (net : String → FetchOutcome)
    (chartType coinSymbol interval : String) (s : AppState)
    (h : net (requestUrl coinSymbol interval) = .rejected ∨
      (∃ status, net (requestUrl coinSymbol interval) = .response status none) ∨
      (∃ status data, net (requestUrl coinSymbol interval) = .response status (some data) ∧
        ∀ rows, data ≠ .arr rows) ∨
      (∃ status rows, net (requestUrl coinSymbol interval) =
        .response status (some (.arr rows)) ∧ JSVal.null ∈ rows)) :
    (fetchData env net chartType coinSymbol interval s).chartData = s.chartData ∧
      (fetchData env net chartType coinSymbol interval s).loading = false := by
  have herr : ∃ e, tryBlock env chartType (net (requestUrl coinSymbol interval)) = .error e := by
    rcases h with h | ⟨status, h⟩ | ⟨status, data, h, hna⟩ | ⟨status, rows, h, hmem⟩
    · exact ⟨.networkError, by simp [h, tryBlock, awaitJson, bind, Except.bind]⟩
    · exact ⟨.syntaxError, by simp [h, tryBlock, awaitJson, bind, Except.bind]⟩
    · refine ⟨.typeError, ?_⟩
      cases data with
      | arr rows => exact absurd rfl (hna rows)
      | _ => simp [h, tryBlock, awaitJson, formattedData, jsMap, bind, Except.bind]
    · obtain ⟨e, he⟩ := mapE_error_of_mem (labelOf env) rows .null hmem
        ⟨.typeError, by simp [labelOf, JSVal.index]⟩
      exact ⟨e, by simp [h, tryBlock, awaitJson, formattedData, jsMap, he, bind, Except.bind]⟩
  obtain ⟨e, he⟩ := herr
  simp [fetchData, fetchDataSettle_error env chartType _ _ e he, fetchDataStart]

/-- C3, amended, at the answer `400 {"code": -1121, "msg": "Invalid symbol."}`. -/
theorem fetchData_failure_keeps_chartData_witness :
    (fetchData refBuiltins (constNet (.response 400 (some errorBody))) "line" "XYZ" "1m"
        { initialState with chartData := some emptyChart }).chartData = some emptyChart ∧
      (fetchData refBuiltins (constNet (.response 400 (some errorBody))) "line" "XYZ" "1m"
        { initialState with chartData := some emptyChart }).loading = false :=
  fetchData_failure_keeps_chartData refBuiltins (constNet (.response 400 (some errorBody)))
    "line" "XYZ" "1m" { initialState with chartData := some emptyChart }
    (Or.inr (Or.inr (Or.inl ⟨400, errorBody, rfl, by intro rows h; cases h⟩)))

/-! ## Lemmas on preferences and on the effect -/

theorem getItem_setItem_same (store : Storage) (key value : String) :
    (store.setItem key value).getItem key = some value := by
  simp [Storage.setItem, Storage.getItem, List.lookup]

theorem getItem_setItem_other (store : Storage) (key key' value : String)
    (h : key' ≠ key) :
    ((store.setItem key value).setItem key' value').getItem key = some value := by
  have h1 : (key == key') = false := by
    simpa using fun h2 => h h2.symm
  have h2 : (key != key') = true := by
    simp [bne, h1]
  simp [Storage.setItem, Storage.getItem, List.lookup, h1, h2]

theorem savePreferences_coin (r : AppState) (store : Storage) :
    (savePreferences r store).getItem "selectedCoin" = some r.coin := by
  unfold savePreferences
  exact getItem_setItem_other store "selectedCoin" "selectedTimeframe" r.coin (by decide)

theorem savePreferences_interval (r : AppState) (store : Storage) :
    (savePreferences r store).getItem "selectedTimeframe" = some r.interval := by
  unfold savePreferences
  exact getItem_setItem_same _ "selectedTimeframe" r.interval

theorem loadPreferences_coin (store : Storage) (s : AppState) :
    (loadPreferences store s).coin =
      if truthy (store.getItem "selectedCoin") then (store.getItem "selectedCoin").getD ""
      else s.coin := by
  unfold loadPreferences
  by_cases hc : truthy (store.getItem "selectedCoin") = true <;>
    by_cases hi : truthy (store.getItem "selectedTimeframe") = true <;> simp [hc, hi]

theorem loadPreferences_interval (store : Storage) (s : AppState) :
    (loadPreferences store s).interval =
      if truthy (store.getItem "selectedTimeframe") then
        (store.getItem "selectedTimeframe").getD ""
      else s.interval := by
  unfold loadPreferences
  by_cases hc : truthy (store.getItem "selectedCoin") = true <;>
    by_cases hi : truthy (store.getItem "selectedTimeframe") = true <;> simp [hc, hi]

theorem loadPreferences_rest (store : Storage) (s : AppState) :
    (loadPreferences store s).chartType = s.chartType ∧
      (loadPreferences store s).chartData = s.chartData ∧
      (loadPreferences store s).loading = s.loading := by
  unfold loadPreferences
  by_cases hc : truthy (store.getItem "selectedCoin") = true <;>
    by_cases hi : truthy (store.getItem "selectedTimeframe") = true <;> simp [hc, hi]

/-- The state after one run of the effect, field by field. -/
theorem runEffect_fields (w : World) :
    (runEffect w).st.coin = (loadPreferences w.store w.st).coin ∧
      (runEffect w).st.interval = (loadPreferences w.store w.st).interval ∧
      (runEffect w).st.chartType = w.st.chartType ∧
      (runEffect w).st.chartData = w.st.chartData ∧
      (runEffect w).st.loading = true ∧
      (runEffect w).store = w.store ∧
      (runEffect w).deps = some (depsOf w.st) ∧
      (runEffect w).calls = w.calls ++
        [{ coinSymbol := w.st.coin, interval := w.st.interval,
           chartType := w.st.chartType }] ∧
      (runEffect w).inflight = w.inflight ++
        [{ coinSymbol := w.st.coin, interval := w.st.interval,
           chartType := w.st.chartType }] := by
  obtain ⟨h1, h2, _⟩ := loadPreferences_rest w.store w.st
  simp [runEffect, callFetchData, fetchDataStart, h1, h2]

/-- The effect is pending exactly when the dependency array changed. -/
theorem effectPending_iff (w : World) :
    effectPending w = false ↔ w.deps = some (depsOf w.st) := by
  simp [effectPending]

/-- After two consecutive runs of the effect no further run is pending: the second run
reads the same preferences as the first. -/
theorem runEffect_runEffect_settled (w : World) :
    effectPending (runEffect (runEffect w)) = false := by
  rw [effectPending_iff]
  obtain ⟨hc, hi, ht, _, _, hs, _⟩ := runEffect_fields w
  obtain ⟨hc2, hi2, ht2, _, _, _, hd2, _⟩ := runEffect_fields (runEffect w)
  rw [hd2]
  congr 1
  simp only [depsOf, hc2, hi2, ht2, hs, hc, hi, loadPreferences_coin, loadPreferences_interval]
  by_cases h1 : truthy (w.store.getItem "selectedCoin") = true <;>
    by_cases h2 : truthy (w.store.getItem "selectedTimeframe") = true <;> simp [h1, h2]

theorem flushEffects_settled (n : Nat) (w : World) (h : effectPending w = false) :
    flushEffects n w = w := by
  cases n with
  | zero => rfl
  | succ n => simp [flushEffects, h]

/-- With fuel for at least two runs, the effect runs while it is pending and at most
twice. -/
theorem flushEffects_eq (n : Nat) (w : World) :
    flushEffects (n + 2) w =
      if effectPending w then
        if effectPending (runEffect w) then runEffect (runEffect w) else runEffect w
      else w := by
  by_cases h1 : effectPending w = true
  · by_cases h2 : effectPending (runEffect w) = true
    · simp [flushEffects, h1, h2, flushEffects_settled n _ (runEffect_runEffect_settled w)]
    · simp [flushEffects, h1, h2]
  · simp [flushEffects, h1]

/-- Any fuel of at least two gives the same result as two, and no effect is pending in
that result. -/
theorem flushEffects_stable (n : Nat) (w : World) (hn : 2 ≤ n) :
    flushEffects n w = flushEffects 2 w ∧ effectPending (flushEffects n w) = false := by
  obtain ⟨m, rfl⟩ : ∃ m, n = m + 2 := ⟨n - 2, by omega⟩
  constructor
  · rw [flushEffects_eq m w, flushEffects_eq 0 w]
  · rw [flushEffects_eq m w]
    by_cases h1 : effectPending w = true
    · by_cases h2 : effectPending (runEffect w) = true
      · simp [h1, h2, runEffect_runEffect_settled w]
      · simp [h1, h2]
    · simp [h1]

theorem flushEffects_effectFuel (w : World) :
    flushEffects effectFuel w =
      if effectPending w then
        if effectPending (runEffect w) then runEffect (runEffect w) else runEffect w
      else w :=
  flushEffects_eq 6 w

/-- What renders and effects leave unchanged, and what they do to the selection when an
effect is pending. -/
theorem flushEffects_fields (w : World) :
    (flushEffects effectFuel w).store = w.store ∧
      (flushEffects effectFuel w).st.chartType = w.st.chartType ∧
      (flushEffects effectFuel w).st.chartData = w.st.chartData ∧
      (effectPending w = true →
        (flushEffects effectFuel w).st.coin = (loadPreferences w.store w.st).coin ∧
        (flushEffects effectFuel w).st.interval = (loadPreferences w.store w.st).interval) := by
  rw [flushEffects_effectFuel]
  obtain ⟨hc, hi, ht, hd, _, hs, _⟩ := runEffect_fields w
  obtain ⟨hc2, hi2, ht2, hd2, _, hs2, _⟩ := runEffect_fields (runEffect w)
  by_cases h1 : effectPending w = true
  · by_cases h2 : effectPending (runEffect w) = true
    · simp only [h1, h2, if_true, true_implies]
      refine ⟨by rw [hs2, hs], by rw [ht2, ht], by rw [hd2, hd], ?_, ?_⟩
      · rw [hc2, hs, loadPreferences_coin, loadPreferences_coin, hc, loadPreferences_coin]
        by_cases h : truthy (w.store.getItem "selectedCoin") = true <;> simp [h]
      · rw [hi2, hs, loadPreferences_interval, loadPreferences_interval, hi,
          loadPreferences_interval]
        by_cases h : truthy (w.store.getItem "selectedTimeframe") = true <;> simp [h]
    · simp only [h1, h2, if_true, true_implies]
      exact ⟨hs, ht, hd, hc, hi⟩
  · simp [h1]

/-- The invocations of `fetchData` made by renders and effects when an effect is pending:
the first is the one of the current render. -/
theorem flushEffects_calls_pending (w : World) (h : effectPending w = true) :
    ∃ rest, (flushEffects effectFuel w).calls = w.calls ++
      { coinSymbol := w.st.coin, interval := w.st.interval,
        chartType := w.st.chartType } :: rest := by
  rw [flushEffects_effectFuel]
  obtain ⟨_, _, _, _, _, _, _, hcalls, _⟩ := runEffect_fields w
  obtain ⟨_, _, _, _, _, _, _, hcalls2, _⟩ := runEffect_fields (runEffect w)
  by_cases h2 : effectPending (runEffect w) = true
  · refine ⟨[⟨(runEffect w).st.coin, (runEffect w).st.interval,
      (runEffect w).st.chartType⟩], ?_⟩
    simp [h, h2, hcalls2, hcalls]
  · exact ⟨[], by simp [h, h2, hcalls]⟩

/-- Renders and effects never leave `loading` true with no request in flight, provided
that held before. -/
theorem flushEffects_loading (w : World)
    (h : w.inflight ≠ [] ∨ w.st.loading = false) :
    (flushEffects effectFuel w).inflight ≠ [] ∨ (flushEffects effectFuel w).st.loading = false := by
  rw [flushEffects_effectFuel]
  obtain ⟨_, _, _, _, _, _, _, _, hin⟩ := runEffect_fields w
  obtain ⟨_, _, _, _, _, _, _, _, hin2⟩ := runEffect_fields (runEffect w)
  by_cases h1 : effectPending w = true
  · by_cases h2 : effectPending (runEffect w) = true
    · simp [h1, h2, hin2]
    · simp [h1, h2, hin]
  · simpa [h1] using h

/-- Every action keeps the invariant that `loading` is true only while a request is in
flight. -/
theorem step_loading (env : Builtins) (w : World) (a : Action)
    (h : w.inflight ≠ [] ∨ w.st.loading = false) :
    (step env w a).inflight ≠ [] ∨ (step env w a).st.loading = false := by
  cases a with
  | coin v =>
    exact flushEffects_loading _ (Or.inl (by simp [handleCoinChange, callFetchData]))
  | timeframe v =>
    exact flushEffects_loading _ (Or.inl (by simp [handleTimeframeChange, callFetchData]))
  | chartType v =>
    exact flushEffects_loading _ (by simpa [handleChartTypeChange] using h)
  | settle k outcome =>
    simp only [step, settleFetch]
    cases hk : w.inflight.get? k with
    | none => simpa using h
    | some call =>
      right
      simp only [fetchDataSettle]
      cases tryBlock env call.chartType outcome <;> rfl

theorem run_loading (env : Builtins) (actions : List Action) :
    ∀ w : World, (w.inflight ≠ [] ∨ w.st.loading = false) →
      ((run env w actions).inflight ≠ [] ∨ (run env w actions).st.loading = false) := by
  induction actions with
  | nil =>
    intro w h
    exact h
  | cons a actions ih =>
    intro w h
    exact ih (step env w a) (step_loading env w a h)

theorem startApp_loading (store : Storage) :
    (startApp store).inflight ≠ [] ∨ (startApp store).st.loading = false := by
  unfold startApp
  rw [flushEffects_effectFuel]
  obtain ⟨_, _, _, _, _, _, _, _, hin⟩ := runEffect_fields (mountWorld store)
  obtain ⟨_, _, _, _, _, _, _, _, hin2⟩ := runEffect_fields (runEffect (mountWorld store))
  have h1 : effectPending (mountWorld store) = true := by
    simp [effectPending, mountWorld]
  by_cases h2 : effectPending (runEffect (mountWorld store)) = true
  · simp [h1, h2, hin2]
  · simp [h1, h2, hin]

/-- A change of the coin makes the effect pending exactly when the coin is new. -/
theorem handleCoinChange_pending (w : World) (hq : effectPending w = false) (v : String) :
    effectPending (handleCoinChange v w) = true ↔ v ≠ w.st.coin := by
  rw [effectPending_iff] at hq
  simp [effectPending, handleCoinChange, callFetchData, fetchDataStart, hq, depsOf]
  exact not_congr eq_comm

/-- A change of the interval makes the effect pending exactly when the interval is
new. -/
theorem handleTimeframeChange_pending (w : World) (hq : effectPending w = false)
    (v : String) :
    effectPending (handleTimeframeChange v w) = true ↔ v ≠ w.st.interval := by
  rw [effectPending_iff] at hq
  simp [effectPending, handleTimeframeChange, callFetchData, fetchDataStart, hq, depsOf]
  exact not_congr eq_comm

/-- A change of the chart type makes the effect pending exactly when the type is new. -/
theorem handleChartTypeChange_pending (w : World) (hq : effectPending w = false)
    (v : String) :
    effectPending (handleChartTypeChange v w) = true ↔ v ≠ w.st.chartType := by
  rw [effectPending_iff] at hq
  simp [effectPending, handleChartTypeChange, hq, depsOf]
  exact not_congr eq_comm

theorem truthy_some (v : String) (h : v ≠ "") : truthy (some v) = true := by
  simp [truthy, h]

/-! ## Handlers, effect and preferences -/

/-- C4 fails on the code: from the selection `ETHUSDT`, `1m`, the coin handler called
with `BTCUSDT` selects `BTCUSDT` but stores `selectedCoin = ETHUSDT`, and the interval
handler called with `1h` selects `1h` but stores `selectedTimeframe = 1m`: each writes the
`coin` and `interval` of the render that created it. -/
theorem handlers_store_previous_selection :
    (handleCoinChange "BTCUSDT" freshWorld).st.coin = "BTCUSDT" ∧
      (handleCoinChange "BTCUSDT" freshWorld).store.getItem "selectedCoin" =
        some "ETHUSDT" ∧
      (handleTimeframeChange "1h" freshWorld).st.interval = "1h" ∧
      (handleTimeframeChange "1h" freshWorld).store.getItem "selectedTimeframe" =
        some "1m" := by
  decide

/-- C5 as stated fails: with chart type `line`, nothing in flight and `loading` false, the
change to `bar` makes the effect call `fetchData("ETHUSDT", "1m")` and `loading`
becomes true. -/
theorem chartType_change_counterexample :
    idleWorld.st.chartType = "line" ∧ idleWorld.st.loading = false ∧
      (changeChartType "bar" idleWorld).calls = idleWorld.calls ++
        [{ coinSymbol := "ETHUSDT", interval := "1m", chartType := "bar" }] ∧
      (changeChartType "bar" idleWorld).st.loading = true := by
  decide

/-- C5, amended: with no effect pending, the chart type handler itself calls `fetchData`
not at all and changes only the `chartType` field; the held chart data is still unchanged
after the renders and effects the change causes; a change to the current chart type
changes nothing, and a change to a different one makes the effect call `fetchData` with
the current coin and interval. -/
theorem chartType_change_effect (w : World) (hq : effectPending w = false) (t : String) :
    ((handleChartTypeChange t w).calls = w.calls ∧
        (handleChartTypeChange t w).store = w.store ∧
        (handleChartTypeChange t w).st = { w.st with chartType := t }) ∧
      (changeChartType t w).st.chartData = w.st.chartData ∧
      (t = w.st.chartType → changeChartType t w = w) ∧
      (t ≠ w.st.chartType → ∃ rest, (changeChartType t w).calls = w.calls ++
        { coinSymbol := w.st.coin, interval := w.st.interval, chartType := t } :: rest) := by
  refine ⟨⟨rfl, rfl, rfl⟩, ?_, ?_, ?_⟩
  · exact (flushEffects_fields (handleChartTypeChange t w)).2.2.1
  · intro ht
    subst ht
    exact flushEffects_settled _ _ hq
  · intro ht
    exact flushEffects_calls_pending (handleChartTypeChange t w)
      ((handleChartTypeChange_pending w hq t).mpr ht)

/-- C5, amended, at the change from `line` to `bar` with nothing in flight. -/
theorem chartType_change_effect_witness :
    effectPending idleWorld = false ∧
      (changeChartType "bar" idleWorld).st.chartData = idleWorld.st.chartData ∧
      ∃ rest, (changeChartType "bar" idleWorld).calls = idleWorld.calls ++
        { coinSymbol := idleWorld.st.coin, interval := idleWorld.st.interval,
          chartType := "bar" } :: rest :=
  ⟨by decide, (chartType_change_effect idleWorld (by decide) "bar").2.1,
    (chartType_change_effect idleWorld (by decide) "bar").2.2.2 (by decide)⟩

/-- C6 as stated fails: from the selection `ETHUSDT`, `1m` the change to `BTCUSDT` causes
three calls of `fetchData`, and so does the change to `1h`; after them no effect is
pending. -/
theorem selection_change_counterexample :
    (changeCoin "BTCUSDT" idleWorld).calls = idleWorld.calls ++
        [{ coinSymbol := "BTCUSDT", interval := "1m", chartType := "line" },
         { coinSymbol := "BTCUSDT", interval := "1m", chartType := "line" },
         { coinSymbol := "ETHUSDT", interval := "1m", chartType := "line" }] ∧
      effectPending (changeCoin "BTCUSDT" idleWorld) = false ∧
      (changeTimeframe "1h" idleWorld).calls = idleWorld.calls ++
        [{ coinSymbol := "ETHUSDT", interval := "1h", chartType := "line" },
         { coinSymbol := "ETHUSDT", interval := "1h", chartType := "line" },
         { coinSymbol := "ETHUSDT", interval := "1m", chartType := "line" }] ∧
      effectPending (changeTimeframe "1h" idleWorld) = false := by
  decide

/-- C6, amended: with no effect pending, the coin handler itself calls `fetchData` exactly
once, with the new coin and the current interval, and for a coin different from the
current one the effect of the next render calls it again with the same arguments;
likewise the interval handler with the current coin and the new interval. -/
theorem selection_change_fetches (w : World) (hq : effectPending w = false)
    (c1 i1 : String) :
    ((handleCoinChange c1 w).calls = w.calls ++
          [{ coinSymbol := c1, interval := w.st.interval, chartType := w.st.chartType }] ∧
        (c1 ≠ w.st.coin → ∃ rest, (changeCoin c1 w).calls = w.calls ++
          { coinSymbol := c1, interval := w.st.interval, chartType := w.st.chartType } ::
          { coinSymbol := c1, interval := w.st.interval, chartType := w.st.chartType } ::
          rest)) ∧
      ((handleTimeframeChange i1 w).calls = w.calls ++
          [{ coinSymbol := w.st.coin, interval := i1, chartType := w.st.chartType }] ∧
        (i1 ≠ w.st.interval → ∃ rest, (changeTimeframe i1 w).calls = w.calls ++
          { coinSymbol := w.st.coin, interval := i1, chartType := w.st.chartType } ::
          { coinSymbol := w.st.coin, interval := i1, chartType := w.st.chartType } ::
          rest)) := by
  refine ⟨⟨rfl, ?_⟩, ⟨rfl, ?_⟩⟩
  · intro hne
    obtain ⟨rest, hrest⟩ := flushEffects_calls_pending (handleCoinChange c1 w)
      ((handleCoinChange_pending w hq c1).mpr hne)
    exact ⟨rest, by
      rw [changeCoin, hrest]
      simp [handleCoinChange, callFetchData, fetchDataStart]⟩
  · intro hne
    obtain ⟨rest, hrest⟩ := flushEffects_calls_pending (handleTimeframeChange i1 w)
      ((handleTimeframeChange_pending w hq i1).mpr hne)
    exact ⟨rest, by
      rw [changeTimeframe, hrest]
      simp [handleTimeframeChange, callFetchData, fetchDataStart]⟩

/-- C6, amended, at the changes to `BTCUSDT` and to `1h` from `ETHUSDT`, `1m`. -/
theorem selection_change_fetches_witness :
    effectPending idleWorld = false ∧
      (∃ rest, (changeCoin "BTCUSDT" idleWorld).calls = idleWorld.calls ++
        { coinSymbol := "BTCUSDT", interval := idleWorld.st.interval,
          chartType := idleWorld.st.chartType } ::
        { coinSymbol := "BTCUSDT", interval := idleWorld.st.interval,
          chartType := idleWorld.st.chartType } :: rest) ∧
      (∃ rest, (changeTimeframe "1h" idleWorld).calls = idleWorld.calls ++
        { coinSymbol := idleWorld.st.coin, interval := "1h",
          chartType := idleWorld.st.chartType } ::
        { coinSymbol := idleWorld.st.coin, interval := "1h",
          chartType := idleWorld.st.chartType } :: rest) :=
  ⟨by decide,
    (selection_change_fetches idleWorld (by decide) "BTCUSDT" "1h").1.2 (by decide),
    (selection_change_fetches idleWorld (by decide) "BTCUSDT" "1h").2.2 (by decide)⟩

/-- C7: after the start of the application the chart type is `line`; a non-empty
`selectedCoin` in the preference store is the selected coin and a non-empty
`selectedTimeframe` is the selected interval; when a key is absent the default
(`ETHUSDT`, `1m`) is kept. -/
theorem startApp_restores_preferences (store : Storage) :
    (startApp store).st.chartType = "line" ∧
      (∀ c, store.getItem "selectedCoin" = some c → c ≠ "" → (startApp store).st.coin = c) ∧
      (∀ i, store.getItem "selectedTimeframe" = some i → i ≠ "" →
        (startApp store).st.interval = i) ∧
      (store.getItem "selectedCoin" = none → (startApp store).st.coin = "ETHUSDT") ∧
      (store.getItem "selectedTimeframe" = none → (startApp store).st.interval = "1m") := by
  have hp : effectPending (mountWorld store) = true := by
    simp [effectPending, mountWorld]
  obtain ⟨_, ht, _, hsel⟩ := flushEffects_fields (mountWorld store)
  obtain ⟨hc, hi⟩ := hsel hp
  refine ⟨ht, ?_, ?_, ?_, ?_⟩
  · intro c hget hne
    have : (startApp store).st.coin = (loadPreferences store initialState).coin := hc
    rw [this, loadPreferences_coin, hget]
    simp [truthy_some c hne]
  · intro i hget hne
    have : (startApp store).st.interval = (loadPreferences store initialState).interval := hi
    rw [this, loadPreferences_interval, hget]
    simp [truthy_some i hne]
  · intro hget
    have : (startApp store).st.coin = (loadPreferences store initialState).coin := hc
    rw [this, loadPreferences_coin, hget]
    simp [truthy, initialState]
  · intro hget
    have : (startApp store).st.interval = (loadPreferences store initialState).interval := hi
    rw [this, loadPreferences_interval, hget]
    simp [truthy, initialState]

/-- C7, at the stored preferences `BTCUSDT` and `1h`, and at an empty store. -/
theorem startApp_restores_preferences_witness :
    (savedStore.getItem "selectedCoin" = some "BTCUSDT" ∧
        savedStore.getItem "selectedTimeframe" = some "1h") ∧
      (startApp savedStore).st.coin = "BTCUSDT" ∧
      (startApp savedStore).st.interval = "1h" ∧
      (startApp savedStore).st.chartType = "line" ∧
      (startApp []).st.coin = "ETHUSDT" ∧
      (startApp []).st.interval = "1m" :=
  ⟨⟨rfl, rfl⟩,
    (startApp_restores_preferences savedStore).2.1 "BTCUSDT" rfl (by decide),
    (startApp_restores_preferences savedStore).2.2.1 "1h" rfl (by decide),
    (startApp_restores_preferences savedStore).1,
    (startApp_restores_preferences []).2.2.2.1 rfl,
    (startApp_restores_preferences []).2.2.2.2 rfl⟩

/-- C8: the time unit of the axis is a function of the interval alone: `1m` and `5m`
give `minute`, `1h` gives `hour`, `1d` gives `day`, `1w` gives `week`, and every other
interval gives `month`; `options` carries that unit. -/
theorem timeUnit_table (interval : String) :
    timeUnit "1m" = "minute" ∧ timeUnit "5m" = "minute" ∧ timeUnit "1h" = "hour" ∧
      timeUnit "1d" = "day" ∧ timeUnit "1w" = "week" ∧
      (interval ∉ ["1m", "5m", "1h", "1d", "1w"] → timeUnit interval = "month") ∧
      (options interval).x.unit = timeUnit interval := by
  refine ⟨by decide, by decide, by decide, by decide, by decide, ?_, rfl⟩
  intro h
  simp only [List.mem_cons, List.mem_singleton, List.not_mem_nil, or_false, not_or] at h
  obtain ⟨h1, h2, h3, h4, h5⟩ := h
  simp [timeUnit, h1, h2, h3, h4, h5]

/-- C8, at the selectable intervals `15m` and `1M`. -/
theorem timeUnit_table_witness :
    ("15m" ∉ ["1m", "5m", "1h", "1d", "1w"] ∧ timeUnit "15m" = "month") ∧
      ("1M" ∉ ["1m", "5m", "1h", "1d", "1w"] ∧ timeUnit "1M" = "month") :=
  ⟨⟨by decide, (timeUnit_table "15m").2.2.2.2.2.1 (by decide)⟩,
    ⟨by decide, (timeUnit_table "1M").2.2.2.2.2.1 (by decide)⟩⟩

/-- C9: a `fetchData` call sets `loading` to true before its request is issued; however
the request settles and whatever the state is by then, the rest of the call leaves
`loading` false, so a whole call ends with `loading` false; and after any sequence of
selection changes and settlements from the start of the application, `loading` is false
whenever no request is in flight. -/
theorem loading_follows_requests (env : Builtins) (net : String → FetchOutcome)
    (chartType coinSymbol interval : String) (s : AppState) (store : Storage)
    (actions : List Action) :
    (fetchDataStart s).loading = true ∧
      (∀ outcome s', (fetchDataSettle env chartType outcome s').loading = false) ∧
      (fetchData env net chartType coinSymbol interval s).loading = false ∧
      ((run env (startApp store) actions).inflight = [] →
        (run env (startApp store) actions).st.loading = false) := by
  have hsettle : ∀ outcome s', (fetchDataSettle env chartType outcome s').loading = false := by
    intro outcome s'
    simp only [fetchDataSettle]
    cases tryBlock env chartType outcome <;> rfl
  refine ⟨rfl, hsettle, hsettle _ _, ?_⟩
  intro hin
  rcases run_loading env actions (startApp store) (startApp_loading store) with h | h
  · exact absurd hin h
  · exact h

/-- C9, at a session in which four requests were issued and all have settled. -/
theorem loading_follows_requests_witness :
    (run refBuiltins (startApp []) sessionActions).calls.length = 4 ∧
      (run refBuiltins (startApp []) sessionActions).inflight = [] ∧
      (run refBuiltins (startApp []) sessionActions).st.loading = false :=
  ⟨by decide, by decide,
    (loading_follows_requests refBuiltins (constNet .rejected) "line" "ETHUSDT" "1m"
      initialState [] sessionActions).2.2.2 (by decide)⟩

/-- C10: with no effect pending and a non-empty current coin and interval, once the coin
handler and the renders and effects it causes have run, the preference store holds the
previous coin under `selectedCoin` and the selected coin is the previous coin again,
whatever coin was chosen; likewise the interval handler leaves the previous interval under
`selectedTimeframe` and selected; in both cases no effect is pending afterwards. -/
theorem selection_change_reverted (w : World) (hq : effectPending w = false)
    (hc : w.st.coin ≠ "") (hi : w.st.interval ≠ "") (c1 i1 : String) :
    ((changeCoin c1 w).store.getItem "selectedCoin" = some w.st.coin ∧
        (changeCoin c1 w).st.coin = w.st.coin ∧
        effectPending (changeCoin c1 w) = false) ∧
      ((changeTimeframe i1 w).store.getItem "selectedTimeframe" = some w.st.interval ∧
        (changeTimeframe i1 w).st.interval = w.st.interval ∧
        effectPending (changeTimeframe i1 w) = false) := by
  constructor
  · obtain ⟨hs, _, _, hsel⟩ := flushEffects_fields (handleCoinChange c1 w)
    have hstore : (handleCoinChange c1 w).store = savePreferences w.st w.store := rfl
    refine ⟨?_, ?_, (flushEffects_stable effectFuel _ (by decide)).2⟩
    · rw [changeCoin, hs, hstore, savePreferences_coin]
    · by_cases hne : c1 = w.st.coin
      · have hnp : effectPending (handleCoinChange c1 w) = false := by
          have := (handleCoinChange_pending w hq c1).not.mpr (by simpa using hne)
          simpa using this
        rw [changeCoin, flushEffects_settled _ _ hnp]
        simpa [handleCoinChange, callFetchData, fetchDataStart] using hne
      · rw [changeCoin, (hsel ((handleCoinChange_pending w hq c1).mpr hne)).1,
          loadPreferences_coin, hstore, savePreferences_coin]
        simp [truthy_some _ hc]
  · obtain ⟨hs, _, _, hsel⟩ := flushEffects_fields (handleTimeframeChange i1 w)
    have hstore : (handleTimeframeChange i1 w).store = savePreferences w.st w.store := rfl
    refine ⟨?_, ?_, (flushEffects_stable effectFuel _ (by decide)).2⟩
    · rw [changeTimeframe, hs, hstore, savePreferences_interval]
    · by_cases hne : i1 = w.st.interval
      · have hnp : effectPending (handleTimeframeChange i1 w) = false := by
          have := (handleTimeframeChange_pending w hq i1).not.mpr (by simpa using hne)
          simpa using this
        rw [changeTimeframe, flushEffects_settled _ _ hnp]
        simpa [handleTimeframeChange, callFetchData, fetchDataStart] using hne
      · rw [changeTimeframe, (hsel ((handleTimeframeChange_pending w hq i1).mpr hne)).2,
          loadPreferences_interval, hstore, savePreferences_interval]
        simp [truthy_some _ hi]

/-- C10, at the changes to `BTCUSDT` and to `1h` from the selection `ETHUSDT`, `1m`. -/
theorem selection_change_reverted_witness :
    (effectPending idleWorld = false ∧ idleWorld.st.coin = "ETHUSDT" ∧
        idleWorld.st.interval = "1m") ∧
      ((changeCoin "BTCUSDT" idleWorld).store.getItem "selectedCoin" =
          some idleWorld.st.coin ∧
        (changeCoin "BTCUSDT" idleWorld).st.coin = idleWorld.st.coin ∧
        effectPending (changeCoin "BTCUSDT" idleWorld) = false) ∧
      ((changeTimeframe "1h" idleWorld).store.getItem "selectedTimeframe" =
          some idleWorld.st.interval ∧
        (changeTimeframe "1h" idleWorld).st.interval = idleWorld.st.interval ∧
        effectPending (changeTimeframe "1h" idleWorld) = false) :=
  ⟨by decide,
    selection_change_reverted idleWorld (by decide) (by decide) (by decide) "BTCUSDT" "1h"⟩

end CryptoVision
